import Mathlib

/-!
Verification of the nvidia-fan-control control algorithm.

The Go source (`nfc.go`) is embedded shallowly: the pure decision function
`getFanSpeedForTemperature` is translated directly, the per-device part of the
monitoring loop becomes explicit list processing, and the startup logic of
`initDevices`/`main` becomes a function from an abstract device-probe
environment to a startup outcome.  Go `int` is modelled as `Int` (no claim
involves overflow).
-/

namespace NFC

/-- A temperature band from the configuration (`TemperatureRange` in the Go
source): interval bounds, target fan speed, and hysteresis margin. -/
structure TemperatureRange where
  minTemperature : Int
  maxTemperature : Int
  fanSpeed : Int
  hysteresis : Int
deriving DecidableEq, Repr

/-- The first range in table order whose interval contains `temp` under the
source's test `temp > r.MinTemperature && temp <= r.MaxTemperature`; `none`
when no range matches.  Embeds the first loop of `getFanSpeedForTemperature`
(the `break` on first match). -/
def findMatch (temp : Int) : List TemperatureRange → Option TemperatureRange
  | [] => none
  | r :: rs =>
    if r.minTemperature < temp ∧ temp ≤ r.maxTemperature then some r
    else findMatch temp rs

/-- The zero value of the Go struct `TemperatureRange`. -/
def zeroRange : TemperatureRange := ⟨0, 0, 0, 0⟩

/-- The first range in table order whose `fanSpeed` equals `prevSpeed`, the
Go zero struct when none does.  Embeds the second loop of
`getFanSpeedForTemperature` (`var prevRange TemperatureRange` plus the
`break` on first match). -/
def findPrevRange (prevSpeed : Int) : List TemperatureRange → TemperatureRange
  | [] => zeroRange
  | r :: rs =>
    if r.fanSpeed = prevSpeed then r else findPrevRange prevSpeed rs

/-- Direct translation of `getFanSpeedForTemperature` from `nfc.go`. -/
def getFanSpeedForTemperature (temp prevSpeed : Int)
    (ranges : List TemperatureRange) : Int :=
  let idealSpeed :=
    match findMatch temp ranges with
    | some r => r.fanSpeed
    | none => prevSpeed
  if prevSpeed < idealSpeed then idealSpeed
  else if idealSpeed < prevSpeed then
    let prevRange := findPrevRange prevSpeed ranges
    if prevRange.fanSpeed = 0 ∧ prevRange.minTemperature = 0 ∧
        prevRange.hysteresis = 0 then
      idealSpeed
    else if temp ≤ prevRange.minTemperature - prevRange.hysteresis then
      idealSpeed
    else prevSpeed
  else prevSpeed

/-- The band the controller believes it is in for a given committed speed:
the first range in table order whose `fanSpeed` equals it, `none` when no
range's speed matches (this is what the second loop of
`getFanSpeedForTemperature` computes, with `none` for the zero struct). -/
def activeBand (prevSpeed : Int) (ranges : List TemperatureRange) :
    Option TemperatureRange :=
  ranges.find? (fun r => r.fanSpeed == prevSpeed)

/-- One tick of the monitoring loop restricted to a single device, with all
actuation writes succeeding: the inner fan loop of `runMonitoringLoop`
computes each fan's new speed from that fan's own stored speed. -/
def tickDevice (temp : Int) (ranges : List TemperatureRange)
    (speeds : List Int) : List Int :=
  speeds.map (fun s => getFanSpeedForTemperature temp s ranges)

/-- Modelled from the spec: one tick that resolves a single target speed from
the representative speed `current_speeds[0]` and broadcasts it to every fan
of the device. -/
def tickBroadcastSpec (temp : Int) (ranges : List TemperatureRange)
    (speeds : List Int) : List Int :=
  match speeds with
  | [] => []
  | s0 :: _ => speeds.map (fun _ => getFanSpeedForTemperature temp s0 ranges)

/-- Modelled from the spec: the resolver described in section 4.1, using the
inclusive-inclusive test `min_temperature ≤ t ≤ max_temperature` and keeping
the last matching band in table order. -/
def resolveSpecLastIncl (temp : Int) (ranges : List TemperatureRange) :
    Option TemperatureRange :=
  ranges.foldl
    (fun acc r =>
      if r.minTemperature ≤ temp ∧ temp ≤ r.maxTemperature then some r else acc)
    none

/-- The committed speed of one fan after a sequence of temperature readings,
one tick per reading, starting from speed `s`. -/
def runTicks (ranges : List TemperatureRange) (s : Int)
    (temps : List Int) : Int :=
  temps.foldl (fun cur t => getFanSpeedForTemperature t cur ranges) s

/-- The three-band policy table used by the spec's end-to-end scenarios. -/
def scenarioTable : List TemperatureRange :=
  [⟨-999, 50, 0, 0⟩, ⟨50, 60, 40, 8⟩, ⟨60, 65, 55, 2⟩]

/-- Outcome of an NVML probe of one device during `initDevices`: whether the
handle was obtained, whether the fan-count query succeeded, and the reported
fan count. -/
structure DeviceProbe where
  handleOk : Bool
  fanCountOk : Bool
  numFans : Int
deriving DecidableEq, Repr

/-- Whether `initDevices` counts the device as set up for fan control (handle
obtained, fan-count query succeeded, positive fan count). -/
def probeReady (p : DeviceProbe) : Bool :=
  p.handleOk && p.fanCountOk && decide (0 < p.numFans)

/-- The `FanCounts` entry `initDevices` records for one device: the reported
fan count when the device is ready, otherwise the zero it was allocated
with. -/
def probeFanCount (p : DeviceProbe) : Int :=
  if probeReady p then p.numFans else 0

/-- Embeds `initDevices` from `nfc.go` over an abstract probe environment:
error when no device is found, error when devices exist but none is ready
for fan control, otherwise the `FanCounts` array. -/
def initDevices (probes : List DeviceProbe) : Except String (List Int) :=
  if probes.length = 0 then .error "no NVIDIA devices found"
  else
    let fanCounts := probes.map probeFanCount
    let readyDevices := (probes.filter probeReady).length
    if readyDevices = 0 ∧ 0 < probes.length then
      .error "no device could be set up for fan control"
    else .ok fanCounts

/-- How startup ends: a `log.Fatalf` abort, the informational clean return in
`main`, or entry into `runMonitoringLoop`. -/
inductive StartupOutcome where
  | fatal
  | cleanExit
  | enterLoop
deriving DecidableEq, Repr

/-- Embeds the tail of `main` from `nfc.go`: `log.Fatalf` on an `initDevices`
error, the informational clean return when no `FanCounts` entry is positive,
otherwise entry into the monitoring loop. -/
def mainStartup (probes : List DeviceProbe) : StartupOutcome :=
  match initDevices probes with
  | .error _ => .fatal
  | .ok fanCounts =>
    if fanCounts.any (fun fc => decide (0 < fc)) then .enterLoop
    else .cleanExit

/-! Helper lemmas about the resolver and the decision function. -/

lemma findMatch_mem {t : Int} {r : TemperatureRange} :
    ∀ {R : List TemperatureRange}, findMatch t R = some r → r ∈ R := by
  intro R
  induction R with
  | nil => intro h; simp [findMatch] at h
  | cons a as ih =>
    intro h
    rw [findMatch] at h
    split at h
    · injection h with h
      exact h ▸ List.mem_cons_self a as
    · exact List.mem_cons_of_mem a (ih h)

lemma findMatch_eq_none_iff {t : Int} :
    ∀ {R : List TemperatureRange},
      findMatch t R = none ↔
        ∀ r ∈ R, ¬(r.minTemperature < t ∧ t ≤ r.maxTemperature) := by
  intro R
  induction R with
  | nil => simp [findMatch]
  | cons a as ih =>
    rw [findMatch]
    by_cases ha : a.minTemperature < t ∧ t ≤ a.maxTemperature
    · rw [if_pos ha]
      constructor
      · intro h; exact absurd h (by simp)
      · intro h; exact absurd ha (h a (List.mem_cons_self a as))
    · rw [if_neg ha, ih]
      constructor
      · intro h r hr
        rcases List.mem_cons.mp hr with hr | hr
        · exact hr ▸ ha
        · exact h r hr
      · intro h r hr
        exact h r (List.mem_cons_of_mem a hr)

lemma findMatch_append_of_none {t : Int} :
    ∀ {R₁ R₂ : List TemperatureRange}, findMatch t R₁ = none →
      findMatch t (R₁ ++ R₂) = findMatch t R₂ := by
  intro R₁ R₂
  induction R₁ with
  | nil => intro _; rfl
  | cons a as ih =>
    intro h
    rw [findMatch] at h
    rw [List.cons_append, findMatch]
    split at h
    · exact absurd h (by simp)
    · next hna => rw [if_neg hna]; exact ih h

lemma findMatch_eq_some_iff {t : Int} {r : TemperatureRange} :
    ∀ {R : List TemperatureRange},
      findMatch t R = some r ↔
        ∃ R₁ R₂, R = R₁ ++ r :: R₂ ∧
          (r.minTemperature < t ∧ t ≤ r.maxTemperature) ∧
          ∀ q ∈ R₁, ¬(q.minTemperature < t ∧ t ≤ q.maxTemperature) := by
  intro R
  constructor
  · induction R with
    | nil => intro h; simp [findMatch] at h
    | cons a as ih =>
      intro h
      rw [findMatch] at h
      split at h
      · next ha =>
        injection h with h
        exact ⟨[], as, by simp [h], h ▸ ha, by simp⟩
      · next hna =>
        obtain ⟨R₁, R₂, hdec, hr, hall⟩ := ih h
        refine ⟨a :: R₁, R₂, by rw [hdec, List.cons_append], hr, ?_⟩
        intro q hq
        rcases List.mem_cons.mp hq with hq | hq
        · exact hq ▸ hna
        · exact hall q hq
  · rintro ⟨R₁, R₂, hdec, hr, hall⟩
    subst hdec
    rw [findMatch_append_of_none (findMatch_eq_none_iff.mpr hall), findMatch,
      if_pos hr]

lemma findPrevRange_eq (s : Int) :
    ∀ (R : List TemperatureRange),
      findPrevRange s R = (activeBand s R).getD zeroRange := by
  intro R
  induction R with
  | nil => rfl
  | cons a as ih =>
    rw [findPrevRange, activeBand, List.find?]
    by_cases ha : a.fanSpeed = s
    · simp [ha]
    · rw [if_neg ha]
      have hba : (a.fanSpeed == s) = false := beq_eq_false_iff_ne.mpr ha
      rw [hba]
      exact ih

lemma activeBand_fanSpeed {s : Int} {R : List TemperatureRange}
    {p : TemperatureRange} (h : activeBand s R = some p) : p.fanSpeed = s := by
  have h' : R.find? (fun r => r.fanSpeed == s) = some p := h
  have hb := List.find?_some h'
  exact eq_of_beq hb

lemma g_no_match {t s : Int} {R : List TemperatureRange}
    (h : findMatch t R = none) : getFanSpeedForTemperature t s R = s := by
  unfold getFanSpeedForTemperature
  rw [h]
  simp

lemma g_fixed {t : Int} {R : List TemperatureRange} {c : TemperatureRange}
    (h : findMatch t R = some c) :
    getFanSpeedForTemperature t c.fanSpeed R = c.fanSpeed := by
  unfold getFanSpeedForTemperature
  rw [h]
  simp

lemma g_down_none {t s : Int} {R : List TemperatureRange}
    {c : TemperatureRange} (hc : findMatch t R = some c)
    (hlt : c.fanSpeed < s) (ha : activeBand s R = none) :
    getFanSpeedForTemperature t s R = c.fanSpeed := by
  have hp : findPrevRange s R = zeroRange := by
    rw [findPrevRange_eq, ha]; rfl
  have h1 : ¬ s < c.fanSpeed := not_lt.mpr hlt.le
  unfold getFanSpeedForTemperature
  rw [hc]
  dsimp only
  rw [if_neg h1, if_pos hlt, hp]
  simp [zeroRange]

lemma g_down_some {t s : Int} {R : List TemperatureRange}
    {c p : TemperatureRange} (hc : findMatch t R = some c)
    (hlt : c.fanSpeed < s) (ha : activeBand s R = some p)
    (hp0 : p.fanSpeed ≠ 0) :
    getFanSpeedForTemperature t s R =
      if t ≤ p.minTemperature - p.hysteresis then c.fanSpeed else s := by
  have hp : findPrevRange s R = p := by
    rw [findPrevRange_eq, ha]; rfl
  have h1 : ¬ s < c.fanSpeed := not_lt.mpr hlt.le
  unfold getFanSpeedForTemperature
  rw [hc]
  dsimp only
  rw [if_neg h1, if_pos hlt, hp,
    if_neg (by intro hz; exact hp0 hz.1)]

lemma g_cases (t s : Int) (R : List TemperatureRange) :
    getFanSpeedForTemperature t s R = s ∨
      ∃ c, findMatch t R = some c ∧
        getFanSpeedForTemperature t s R = c.fanSpeed := by
  cases hm : findMatch t R with
  | none => exact Or.inl (g_no_match hm)
  | some c =>
    by_cases h1 : s < c.fanSpeed
    · refine Or.inr ⟨c, rfl, ?_⟩
      unfold getFanSpeedForTemperature
      rw [hm]
      dsimp only
      rw [if_pos h1]
    · by_cases h2 : c.fanSpeed < s
      · have hval : getFanSpeedForTemperature t s R = c.fanSpeed ∨
            getFanSpeedForTemperature t s R = s := by
          unfold getFanSpeedForTemperature
          rw [hm]
          dsimp only
          rw [if_neg h1, if_pos h2]
          split_ifs with h3 h4
          · exact Or.inl rfl
          · exact Or.inl rfl
          · exact Or.inr rfl
        rcases hval with h | h
        · exact Or.inr ⟨c, rfl, h⟩
        · exact Or.inl h
      · refine Or.inl ?_
        unfold getFanSpeedForTemperature
        rw [hm]
        dsimp only
        rw [if_neg h1, if_neg h2]

lemma g_mem (t s : Int) (R : List TemperatureRange) :
    getFanSpeedForTemperature t s R = s ∨
      ∃ r ∈ R, getFanSpeedForTemperature t s R = r.fanSpeed := by
  rcases g_cases t s R with h | ⟨c, hm, h⟩
  · exact Or.inl h
  · exact Or.inr ⟨c, findMatch_mem hm, h⟩

lemma runTicks_mem (R : List TemperatureRange) :
    ∀ (ts : List Int) (s : Int),
      runTicks R s ts = s ∨ ∃ r ∈ R, runTicks R s ts = r.fanSpeed := by
  intro ts
  induction ts with
  | nil => intro s; exact Or.inl rfl
  | cons t ts ih =>
    intro s
    have hstep : runTicks R s (t :: ts) =
        runTicks R (getFanSpeedForTemperature t s R) ts := rfl
    rcases ih (getFanSpeedForTemperature t s R) with h | h
    · rw [hstep, h]
      exact g_mem t s R
    · rw [hstep]
      exact Or.inr h

/-! Claim theorems. -/

/-- C1: on a downward transition (the resolved candidate band's fan speed is
strictly below the previous committed speed), the controller commits the
lower speed exactly when `t ≤ m − h` for the band it currently believes it
is in (the first band whose fan speed equals the committed speed), returns
the previous speed unchanged otherwise, and commits immediately when that
active band is unset.  Stated for tables with non-negative fan speeds, as
the data model requires. -/
theorem c1_downward_hysteresis (t s : Int) (R : List TemperatureRange)
    (c : TemperatureRange) (hpos : ∀ r ∈ R, 0 ≤ r.fanSpeed)
    (hc : findMatch t R = some c) (hlt : c.fanSpeed < s) :
    (activeBand s R = none → getFanSpeedForTemperature t s R = c.fanSpeed) ∧
    ∀ p, activeBand s R = some p →
      (t ≤ p.minTemperature - p.hysteresis →
        getFanSpeedForTemperature t s R = c.fanSpeed) ∧
      (p.minTemperature - p.hysteresis < t →
        getFanSpeedForTemperature t s R = s) := by
  refine ⟨fun ha => g_down_none hc hlt ha, fun p hp => ?_⟩
  have hps : p.fanSpeed = s := activeBand_fanSpeed hp
  have hc0 : 0 ≤ c.fanSpeed := hpos c (findMatch_mem hc)
  have hp0 : p.fanSpeed ≠ 0 := by omega
  have hg := g_down_some hc hlt hp hp0
  constructor
  · intro hle
    rw [hg, if_pos hle]
  · intro hgt
    rw [hg, if_neg (not_le.mpr hgt)]

/-- C1 witness: with the scenario table and committed speed 55 (active band
`{60, 65, 55, 2}`), reading 58 commits 40 and reading 59 holds 55. -/
theorem c1_downward_hysteresis_witness :
    getFanSpeedForTemperature 58 55 scenarioTable = 40 ∧
    getFanSpeedForTemperature 59 55 scenarioTable = 55 := by
  constructor
  · exact ((c1_downward_hysteresis 58 55 scenarioTable ⟨50, 60, 40, 8⟩
      (by decide) (by decide) (by decide)).2 ⟨60, 65, 55, 2⟩ (by decide)).1
      (by decide)
  · exact ((c1_downward_hysteresis 59 55 scenarioTable ⟨50, 60, 40, 8⟩
      (by decide) (by decide) (by decide)).2 ⟨60, 65, 55, 2⟩ (by decide)).2
      (by decide)

/-- C2 counterexample: the resolver of the code is not the spec's
inclusive-inclusive last-match resolver.  At `t = 50` the code's resolver
rejects the band `{50, 60, 40, 8}` (its test excludes the lower bound) while
the spec's resolver returns it; and on two overlapping bands containing 50
the code keeps the first while the spec keeps the last. -/
theorem c2_resolver_counterexample :
    findMatch 50 [⟨50, 60, 40, 8⟩] = none ∧
    resolveSpecLastIncl 50 [⟨50, 60, 40, 8⟩] = some ⟨50, 60, 40, 8⟩ ∧
    findMatch 50 [⟨10, 100, 30, 0⟩, ⟨20, 100, 70, 0⟩] = some ⟨10, 100, 30, 0⟩ ∧
    resolveSpecLastIncl 50 [⟨10, 100, 30, 0⟩, ⟨20, 100, 70, 0⟩] =
      some ⟨20, 100, 70, 0⟩ := by decide

/-- C2 amended: the resolver selects a band by the exclusive-inclusive test
`min_temperature < t ≤ max_temperature`, and when more than one band matches
it keeps the first matching band in table order: it returns `none` exactly
when no band passes the test, and returns `r` exactly when the table splits
as `R₁ ++ r :: R₂` with `r` passing the test and every band of `R₁`
failing it. -/
theorem c2_first_match_exclusive (t : Int) (R : List TemperatureRange) :
    (findMatch t R = none ↔
      ∀ r ∈ R, ¬(r.minTemperature < t ∧ t ≤ r.maxTemperature)) ∧
    ∀ r : TemperatureRange,
      findMatch t R = some r ↔
        ∃ R₁ R₂, R = R₁ ++ r :: R₂ ∧
          (r.minTemperature < t ∧ t ≤ r.maxTemperature) ∧
          ∀ q ∈ R₁, ¬(q.minTemperature < t ∧ t ≤ q.maxTemperature) :=
  ⟨findMatch_eq_none_iff, fun _ => findMatch_eq_some_iff⟩

/-- C3: when the resolved candidate band's fan speed is strictly above the
previous committed speed, the committed speed equals the candidate's fan
speed on that tick, with no hysteresis condition. -/
theorem c3_upward_immediate (t s : Int) (R : List TemperatureRange)
    (c : TemperatureRange) (hc : findMatch t R = some c)
    (h : s < c.fanSpeed) :
    getFanSpeedForTemperature t s R = c.fanSpeed := by
  unfold getFanSpeedForTemperature
  rw [hc]
  dsimp only
  rw [if_pos h]

/-- C3 witness: at reading 63 with previous speed 40 the scenario table's
band `{60, 65, 55, 2}` is committed immediately. -/
theorem c3_upward_immediate_witness :
    getFanSpeedForTemperature 63 40 scenarioTable = 55 :=
  c3_upward_immediate 63 40 scenarioTable ⟨60, 65, 55, 2⟩ (by decide)
    (by decide)

/-- C4 counterexample: the loop does not broadcast one speed resolved from
`current_speeds[0]` to every fan: each fan's new speed is resolved from that
fan's own stored speed, so at reading 59 a device whose fans hold 55 and 40
keeps them at 55 and 40, while the broadcast model of the spec would drive
both to 55. -/
theorem c4_broadcast_counterexample :
    tickDevice 59 scenarioTable [55, 40] = [55, 40] ∧
    tickBroadcastSpec 59 scenarioTable [55, 40] = [55, 55] ∧
    tickDevice 59 scenarioTable [55, 40] ≠
      tickBroadcastSpec 59 scenarioTable [55, 40] := by decide

/-- C4 amended: each fan's target speed is resolved independently from that
fan's own stored speed by the same decision function; whenever all fans of a
device hold one common speed, a tick agrees with the spec's broadcast model
and every fan receives the same committed speed. -/
theorem c4_uniform_broadcast (temp : Int) (R : List TemperatureRange)
    (speeds : List Int) (s : Int) (h : ∀ x ∈ speeds, x = s) :
    tickDevice temp R speeds = tickBroadcastSpec temp R speeds ∧
    ∀ y ∈ tickDevice temp R speeds,
      y = getFanSpeedForTemperature temp s R := by
  constructor
  · cases speeds with
    | nil => rfl
    | cons s0 rest =>
      have hs0 : s0 = s := h s0 (List.mem_cons_self s0 rest)
      unfold tickDevice tickBroadcastSpec
      dsimp only
      apply List.map_congr_left
      intro a ha
      rw [h a ha, hs0]
  · intro y hy
    unfold tickDevice at hy
    rcases List.mem_map.mp hy with ⟨x, hx, hxy⟩
    rw [← hxy, h x hx]

/-- C4 witness: on a device whose two fans both hold 55, the tick at reading
61 coincides with the broadcast model. -/
theorem c4_uniform_broadcast_witness :
    tickDevice 61 scenarioTable [55, 55] =
      tickBroadcastSpec 61 scenarioTable [55, 55] :=
  (c4_uniform_broadcast 61 scenarioTable [55, 55] 55 (by decide)).1

/-- C5: with the scenario table and starting speed 40, the readings 63, 61,
57 commit the speeds 55, 55, 40 in sequence. -/
theorem c5_scenario_b :
    getFanSpeedForTemperature 63 40 scenarioTable = 55 ∧
    getFanSpeedForTemperature 61 55 scenarioTable = 55 ∧
    getFanSpeedForTemperature 57 55 scenarioTable = 40 := by decide

/-- C6: for a temperature outside every band of the table, the resolver
reports no match and the committed speed equals the previous speed, for
every previous speed. -/
theorem c6_outside_no_match (t s : Int) (R : List TemperatureRange)
    (h : ∀ r ∈ R, ¬(r.minTemperature ≤ t ∧ t ≤ r.maxTemperature)) :
    findMatch t R = none ∧ getFanSpeedForTemperature t s R = s := by
  have hnone : findMatch t R = none :=
    findMatch_eq_none_iff.mpr (fun r hr hc => h r hr ⟨hc.1.le, hc.2⟩)
  exact ⟨hnone, g_no_match hnone⟩

/-- C6 witness: 200 lies outside every band of the scenario table, so the
resolver reports no match and the previous speed 7 is retained. -/
theorem c6_outside_no_match_witness :
    findMatch 200 scenarioTable = none ∧
    getFanSpeedForTemperature 200 7 scenarioTable = 7 :=
  c6_outside_no_match 200 7 scenarioTable (by decide)

/-- C7 counterexample: with one enumerated device reporting zero fans,
startup aborts fatally (the `initDevices` error path) rather than exiting
cleanly with an informational message. -/
theorem c7_zero_fans_counterexample :
    mainStartup [⟨true, true, 0⟩] = StartupOutcome.fatal ∧
    mainStartup [⟨true, true, 0⟩] ≠ StartupOutcome.cleanExit := by decide

/-- C7 amended: when devices are enumerated but none is ready for fan
control, the process aborts with a fatal diagnostic before the monitoring
loop; the informational clean-exit path in `main` is unreachable for every
probe environment. -/
theorem c7_zero_fans_fatal (probes : List DeviceProbe)
    (hne : probes ≠ [])
    (h : ∀ p ∈ probes, probeReady p = false) :
    mainStartup probes = StartupOutcome.fatal ∧
      ∀ qs : List DeviceProbe, mainStartup qs ≠ StartupOutcome.cleanExit := by
  constructor
  · have hlen : ¬ probes.length = 0 := fun hh => hne (List.length_eq_zero.mp hh)
    have hfil : probes.filter probeReady = [] :=
      List.filter_eq_nil_iff.mpr (fun p hp => by simp [h p hp])
    have hinit : initDevices probes =
        Except.error "no device could be set up for fan control" := by
      unfold initDevices
      rw [if_neg hlen]
      dsimp only
      rw [hfil]
      exact if_pos ⟨rfl, Nat.pos_of_ne_zero hlen⟩
    simp [mainStartup, hinit]
  · intro qs
    unfold mainStartup
    cases hq : initDevices qs with
    | error e => simp
    | ok fanCounts =>
      dsimp only
      have hany : fanCounts.any (fun fc => decide (0 < fc)) = true := by
        unfold initDevices at hq
        by_cases hlq : qs.length = 0
        · rw [if_pos hlq] at hq
          exact absurd hq (by simp)
        · rw [if_neg hlq] at hq
          dsimp only at hq
          by_cases hcond : (qs.filter probeReady).length = 0 ∧ 0 < qs.length
          · rw [if_pos hcond] at hq
            exact absurd hq (by simp)
          · rw [if_neg hcond] at hq
            have hfc : fanCounts = qs.map probeFanCount := by
              injection hq with hh
              exact hh.symm
            have hql : 0 < qs.length := Nat.pos_of_ne_zero hlq
            have hflne : (qs.filter probeReady).length ≠ 0 :=
              fun hh => hcond ⟨hh, hql⟩
            obtain ⟨p, hp⟩ : ∃ p, p ∈ qs.filter probeReady := by
              cases hfq : qs.filter probeReady with
              | nil => exact absurd (by simp [hfq]) hflne
              | cons a l => exact ⟨a, List.mem_cons_self a l⟩
            have hpmem : p ∈ qs := List.mem_of_mem_filter hp
            have hpr : probeReady p = true := List.of_mem_filter hp
            have hnf : 0 < p.numFans := by
              have hx := hpr
              unfold probeReady at hx
              simp only [Bool.and_eq_true, decide_eq_true_eq] at hx
              exact hx.2
            have hpfc : probeFanCount p = p.numFans := by
              unfold probeFanCount
              rw [if_pos hpr]
            rw [hfc]
            apply List.any_eq_true.mpr
            refine ⟨probeFanCount p, List.mem_map_of_mem probeFanCount hpmem, ?_⟩
            rw [hpfc]
            exact decide_eq_true hnf
      rw [if_pos hany]
      simp

/-- C7 witness: two enumerated devices, one with a failed fan-count query
and one with a failed handle, lead to a fatal abort. -/
theorem c7_zero_fans_fatal_witness :
    mainStartup [⟨true, false, 3⟩, ⟨false, true, 2⟩] = StartupOutcome.fatal :=
  (c7_zero_fans_fatal [⟨true, false, 3⟩, ⟨false, true, 2⟩] (by decide)
    (by decide)).1

/-- C8: the per-tick speed decision is idempotent: re-applying the decision
function at the same temperature to the speed it just committed returns that
speed unchanged, so a repeated tick at an unchanged temperature never
changes the speed (and hence never re-triggers an actuation write, which the
loop issues only on a changed speed). -/
theorem c8_idempotent (t s : Int) (R : List TemperatureRange) :
    getFanSpeedForTemperature t (getFanSpeedForTemperature t s R) R =
      getFanSpeedForTemperature t s R := by
  rcases g_cases t s R with h | ⟨c, hm, h⟩
  · rw [h]
    exact h
  · rw [h]
    exact g_fixed hm

/-- C9: the hysteresis reference band is reconstructed on every downward
decision as the first band in table order whose fan speed equals the current
committed speed, and when no band's fan speed equals it the lower candidate
speed is committed immediately with no hold.  Stated for tables with
non-negative fan speeds, as the data model requires. -/
theorem c9_reconstructed_reference (t s : Int) (R : List TemperatureRange)
    (c : TemperatureRange) (hpos : ∀ r ∈ R, 0 ≤ r.fanSpeed)
    (hc : findMatch t R = some c) (hlt : c.fanSpeed < s) :
    getFanSpeedForTemperature t s R =
      match R.find? (fun r => r.fanSpeed == s) with
      | none => c.fanSpeed
      | some p =>
        if t ≤ p.minTemperature - p.hysteresis then c.fanSpeed else s := by
  cases hp : R.find? (fun r => r.fanSpeed == s) with
  | none => exact g_down_none hc hlt hp
  | some p =>
    have hps : p.fanSpeed = s := activeBand_fanSpeed hp
    have hc0 : 0 ≤ c.fanSpeed := hpos c (findMatch_mem hc)
    have hp0 : p.fanSpeed ≠ 0 := by omega
    exact g_down_some hc hlt hp hp0

/-- C9 witness: at reading 57 with committed speed 55 on the scenario table,
the reconstructed reference band is `{60, 65, 55, 2}` and the decision
follows the reconstruction rule, committing 40. -/
theorem c9_reconstructed_reference_witness :
    getFanSpeedForTemperature 57 55 scenarioTable =
      match scenarioTable.find? (fun r => r.fanSpeed == 55) with
      | none => (40 : Int)
      | some p =>
        if (57 : Int) ≤ p.minTemperature - p.hysteresis then 40 else 55 :=
  c9_reconstructed_reference 57 55 scenarioTable ⟨50, 60, 40, 8⟩ (by decide)
    (by decide) (by decide)

/-- C10: the decision function returns either the previous speed or the fan
speed of some band of the table, and consequently after any sequence of
ticks a fan's speed is its initial speed or a configured band speed. -/
theorem c10_speed_closure (R : List TemperatureRange) :
    (∀ t s : Int, getFanSpeedForTemperature t s R = s ∨
      ∃ r ∈ R, getFanSpeedForTemperature t s R = r.fanSpeed) ∧
    ∀ (s₀ : Int) (ts : List Int),
      runTicks R s₀ ts = s₀ ∨ ∃ r ∈ R, runTicks R s₀ ts = r.fanSpeed :=
  ⟨fun t s => g_mem t s R, fun s₀ ts => runTicks_mem R ts s₀⟩

end NFC
